import Mathlib

/-!
Shallow embedding of the origin-authorization engine of the CORS-backend
repository: the functions of `cors@2.8.5` that the tutorial quotes and steps
through (`configureOrigin`, `isOriginAllowed`, the header-serialization step),
and the `/invitation-only` route handler of `app.js` (the authorization gate).

Conventions of the embedding:
* A request origin (`req.headers.origin`) is `Option String`; `none` stands for
  the JavaScript value `undefined` (direct / same-site requests).
* The configured `options.origin` value is `OriginSpec`: JavaScript dispatches
  on it with `Array.isArray`, `isString`, `instanceof RegExp`, else truthiness,
  so any value that is not an array, a string or a regular expression is
  abstracted by its truthiness alone (constructor `other`), exactly as the
  source only ever uses `!!allowedOrigin` on such values.
* A JavaScript regular expression is modelled restricted to the pattern class
  this repository uses, anchored literal prefixes `/^literal/` with an optional
  `i` flag (`app.js` uses `/^HTTP:\/\/LOCALHOST:/i`).
-/

namespace CorsBackend

/-- A value stored under a response-header key before serialization.  In
`configureOrigin` the pushed value is the string `"*"`, the configured string,
the request origin (a string, or `undefined` when the request carried no
origin), or the boolean `false` on denial. -/
inductive HVal
| str (s : String)
| undef
| fls
deriving DecidableEq

/-- JavaScript truthiness of a header value: a string is truthy iff nonempty;
`undefined` and `false` are falsy. -/
def HVal.truthy : HVal → Bool
| .str s => !(s == "")
| .undef => false
| .fls => false

/-- The request origin as the header value variable `requestOrigin` of
`configureOrigin` holds it: the string itself, or `undefined` when absent. -/
def HVal.ofOrigin : Option String → HVal
| none => .undef
| some s => .str s

/-- Model of a JavaScript `RegExp` restricted to the anchored-prefix patterns
used in this repository: `source` is the literal after the `^` anchor and
`ignoreCase` is the `i` flag. -/
structure JSRegExp where
  source : String
  ignoreCase : Bool

/-- JavaScript `ToString` coercion that `RegExp.prototype.test` applies to its
argument: `undefined` stringifies to `"undefined"`. -/
def originToString : Option String → String
| none => "undefined"
| some s => s

/-- Case folding as the JS `i` flag applies it to the ASCII patterns and
origins this repository works with: fold every character to lower case. -/
def jsToLower (s : String) : List Char := s.data.map Char.toLower

/-- `RegExp.prototype.test` for an anchored-prefix pattern: the subject starts
with the literal, after case folding both sides when the `i` flag is set. -/
def JSRegExp.test (r : JSRegExp) (s : String) : Bool :=
  if r.ignoreCase then
    List.isPrefixOf (jsToLower r.source) (jsToLower s)
  else
    List.isPrefixOf r.source.data s.data

/-- The value of `options.origin`, dispatched on by `configureOrigin` and
`isOriginAllowed` via `Array.isArray` / `isString` / `instanceof RegExp`, with
every other JavaScript value abstracted by its truthiness (`other`). -/
inductive OriginSpec
| arr (xs : List OriginSpec)
| str (s : String)
| regex (r : JSRegExp)
| other (truthy : Bool)

/-- JavaScript truthiness of an `options.origin` value: arrays and regular
expressions are objects, hence truthy; a string is truthy iff nonempty. -/
def OriginSpec.truthy : OriginSpec → Bool
| .arr _ => true
| .str s => !(s == "")
| .regex _ => true
| .other b => b

/-- The strict comparison `options.origin === mk_str "*"` of `configureOrigin`:
true exactly when the value is the string `"*"`. -/
def OriginSpec.isWildcard : OriginSpec → Bool
| .str s => s == "*"
| _ => false

mutual

/-- `isOriginAllowed(origin, allowedOrigin)` of `cors@2.8.5` (part_000 lines
700-715): recurse over an array until some element matches, compare strings
with `===`, test regular expressions, and fall back to `!!allowedOrigin` for
any other value. -/
def isOriginAllowed (origin : Option String) : OriginSpec → Bool
| .arr xs => isOriginAllowedList origin xs
| .str s => origin == some s
| .regex r => r.test (originToString origin)
| .other b => b
termination_by structural s => s

/-- The `for` loop of `isOriginAllowed` over an array: return `true` at the
first matching element, `false` after the loop. -/
def isOriginAllowedList (origin : Option String) : List OriginSpec → Bool
| [] => false
| a :: rest => isOriginAllowed origin a || isOriginAllowedList origin rest
termination_by structural xs => xs

end

/-- A response-header directive as pushed by `configureOrigin` (each pushed
singleton sub-array is flattened to its one element, exactly as the
serialization step recursively flattens sub-arrays). -/
structure Header where
  key : String
  value : HVal
deriving DecidableEq

/-- `configureOrigin(options, req)` of `cors@2.8.5` (part_000 lines 576-611):
falsy or `"*"` origin emits the wildcard header; a string origin emits the
configured string plus `Vary: Origin` unconditionally; otherwise the request
origin is reflected if `isOriginAllowed` accepts it and the value `false` is
recorded if not, plus `Vary: Origin` in either case. -/
def configureOrigin (optionsOrigin : OriginSpec) (requestOrigin : Option String) :
    List Header :=
  if !optionsOrigin.truthy || optionsOrigin.isWildcard then
    [⟨"Access-Control-Allow-Origin", HVal.str "*"⟩]
  else
    match optionsOrigin with
    | .str s =>
        [⟨"Access-Control-Allow-Origin", HVal.str s⟩,
         ⟨"Vary", HVal.str "Origin"⟩]
    | p =>
        let isAllowed := isOriginAllowed requestOrigin p
        [⟨"Access-Control-Allow-Origin",
           if isAllowed then HVal.ofOrigin requestOrigin else HVal.fls⟩,
         ⟨"Vary", HVal.str "Origin"⟩]

/-- Modelled from the spec: the header-serialization step (`applyHeaders` of
`cors@2.8.5`, of which the repository quotes only the line
`res.setHeader(header.key, header.value)` and the description that it iterates
over the array).  Per the spec a denial "MUST result in no usable header value
being written": only a truthy string value is written onto the response header
map; the boolean `false` and `undefined` are never serialized. -/
def applyHeaders (headers : List Header) : List (String × String) :=
  headers.filterMap fun h =>
    match h.value with
    | HVal.str s => if s == "" then none else some (h.key, s)
    | _ => none

/-- `res.get(key)`: case-insensitive lookup of a response header, as Node
stores header names case-insensitively (the tutorial notes the stored property
name is all lowercase). -/
def resGet (resHeaders : List (String × String)) (key : String) : Option String :=
  (resHeaders.find? fun p => jsToLower p.fst == jsToLower key).map Prod.snd

/-- The cors middleware stage around `configureOrigin` (part_000 lines
536-541 and the NOTE at lines 640-652): when the resolved `options.origin` is
falsy (`err2 || !origin` evaluates to true, e.g. `{ origin: false }`), the
whole header-setting process is skipped and no header is written at all;
otherwise the directives of `configureOrigin` are serialized. -/
def corsMiddlewareHeaders (optionsOrigin : OriginSpec)
    (requestOrigin : Option String) : List (String × String) :=
  if optionsOrigin.truthy then
    applyHeaders (configureOrigin optionsOrigin requestOrigin)
  else
    []

/-- The gate of the `/invitation-only` handler in `app.js` (line 61):
`ok = (allowed === origin || allowed === "*")`, where both `origin` and
`allowed` are each `undefined` or a string, and `undefined === undefined`
is true. -/
def gateCheck (origin allowed : Option String) : Bool :=
  allowed == origin || allowed == some "*"

/-- The `/invitation-only` handler of `app.js` (lines 41-72): read the request
origin and the already-set allow-origin response header, gate, and send either
the expensively computed message or the empty string.  `res.send` with a plain
string replies with Express's default success status 200 in either case; the
result is the pair (body, status code).  The expensive computation is passed
as a function so that skipping it is visible in the embedding. -/
def invitationOnlyHandler (expensiveMessage : Unit → String)
    (origin allowed : Option String) : String × Nat :=
  let ok := gateCheck origin allowed
  let message := if ok then expensiveMessage () else ""
  (message, 200)

/-- The concrete `corsOptions.origin` of `app.js` (lines 10-15): the
case-insensitive pattern `/^HTTP:\/\/LOCALHOST:/i` and the literal
`"http://127.0.0.1:3000"`. -/
def corsOptionsOrigin : OriginSpec :=
  .arr [.regex ⟨"HTTP://LOCALHOST:", true⟩, .str "http://127.0.0.1:3000"]

/-! Helper lemmas. -/

/-- The loop of `isOriginAllowed` over an array computes `List.any` of the
recursive matcher. -/
theorem isOriginAllowedList_eq_any (origin : Option String) (xs : List OriginSpec) :
    isOriginAllowedList origin xs = xs.any fun m => isOriginAllowed origin m := by
  induction xs with
  | nil => rfl
  | cons a rest ih => simp [isOriginAllowedList, ih]

/-- If a nonempty character list is a prefix of another, its head occurs in
the other list. -/
theorem head_mem_of_isPrefixOf {c : Char} {l₁ l₂ : List Char}
    (h : List.isPrefixOf (c :: l₁) l₂ = true) : c ∈ l₂ := by
  cases l₂ with
  | nil => simp [List.isPrefixOf] at h
  | cons b bs =>
    have hcb : c = b := by
      simp [List.isPrefixOf] at h
      exact h.1
    rw [hcb]
    exact List.mem_cons_self b bs

/-! Claim theorems. -/

/-- C1: the AuthorizationGate check of the `/invitation-only` handler proceeds
exactly when the response allow-origin value strictly equals the request origin
or is the wildcard string, and in particular the absent/absent comparison
evaluates to true, so a direct request with no origin and no allow-origin
header proceeds. -/
theorem gateCheck_proceed_iff (requestOrigin allowed : Option String) :
    (gateCheck requestOrigin allowed = true ↔
      (allowed = requestOrigin ∨ allowed = some "*"))
    ∧ gateCheck none none = true := by
  refine ⟨?_, rfl⟩
  simp [gateCheck]

/-- C2: whenever the gate computes proceed = false, the `/invitation-only`
handler replies with the empty body and the normal success status 200 (never a
5xx), independently of the expensive message computation, which is therefore
never invoked. -/
theorem invitationOnly_denied_empty_success (expensiveMessage : Unit → String)
    (origin allowed : Option String) (h : gateCheck origin allowed = false) :
    invitationOnlyHandler expensiveMessage origin allowed = ("", 200)
    ∧ (invitationOnlyHandler expensiveMessage origin allowed).snd < 500 := by
  constructor
  · simp [invitationOnlyHandler, h]
  · simp [invitationOnlyHandler]

/-- Witness for C2 at the non-whitelisted cross-origin of the tutorial. -/
theorem invitationOnly_denied_empty_success_witness :
    gateCheck (some "http://192.168.0.11:3000") none = false
    ∧ invitationOnlyHandler
        (fun _ => "TODO: DATABASE STUFF TO GENERATE A REAL MESSAGE")
        (some "http://192.168.0.11:3000") none = ("", 200) :=
  ⟨by decide,
   (invitationOnly_denied_empty_success _ _ _ (by decide)).1⟩

/-- C3: for a present origin under a Set (array) or Reflect (boolean `true`)
policy that `isOriginAllowed` rejects, `configureOrigin` records `Vary: Origin`
(varies = true) together with the allow-origin value `false`, and
serialization writes no usable allow-origin header, so the gate later observes
the header as absent. -/
theorem reflect_set_denial_header_absent (o : String) (p : OriginSpec)
    (hshape : (∃ xs, p = OriginSpec.arr xs) ∨ p = OriginSpec.other true)
    (hno : isOriginAllowed (some o) p = false) :
    configureOrigin p (some o) =
      [⟨"Access-Control-Allow-Origin", HVal.fls⟩, ⟨"Vary", HVal.str "Origin"⟩]
    ∧ resGet (applyHeaders (configureOrigin p (some o)))
        "access-control-allow-origin" = none := by
  rcases hshape with ⟨xs, rfl⟩ | rfl
  · have hc : configureOrigin (OriginSpec.arr xs) (some o) =
        [⟨"Access-Control-Allow-Origin", HVal.fls⟩,
         ⟨"Vary", HVal.str "Origin"⟩] := by
      simp [configureOrigin, OriginSpec.truthy, OriginSpec.isWildcard, hno]
    refine ⟨hc, ?_⟩
    rw [hc]
    decide
  · simp [isOriginAllowed] at hno

/-- Witness for C3 at the repository's own cors options and the tutorial's
non-whitelisted origin. -/
theorem reflect_set_denial_header_absent_witness :
    isOriginAllowed (some "http://192.168.0.11:3000") corsOptionsOrigin = false
    ∧ resGet (applyHeaders
        (configureOrigin corsOptionsOrigin (some "http://192.168.0.11:3000")))
        "access-control-allow-origin" = none :=
  ⟨by decide,
   (reflect_set_denial_header_absent "http://192.168.0.11:3000" corsOptionsOrigin
      (Or.inl ⟨_, rfl⟩) (by decide)).2⟩

/-- C4: matching an array policy succeeds exactly when some matcher of the
sequence matches (the loop short-circuits with `||`), and the boolean result
is invariant under permutation of the sequence. -/
theorem set_match_any_iff_perm_invariant (origin : Option String)
    (xs ys : List OriginSpec) (hperm : xs.Perm ys) :
    (isOriginAllowed origin (OriginSpec.arr xs) = true ↔
      ∃ m ∈ xs, isOriginAllowed origin m = true)
    ∧ isOriginAllowed origin (OriginSpec.arr xs) =
        isOriginAllowed origin (OriginSpec.arr ys) := by
  have key : ∀ zs : List OriginSpec,
      isOriginAllowed origin (OriginSpec.arr zs) =
        zs.any fun m => isOriginAllowed origin m := fun zs =>
    isOriginAllowedList_eq_any origin zs
  constructor
  · rw [key]
    exact List.any_eq_true
  · rw [key, key]
    cases hx : List.any xs fun m => isOriginAllowed origin m with
    | false =>
      cases hy : List.any ys fun m => isOriginAllowed origin m with
      | false => rfl
      | true =>
        obtain ⟨m, hm, hf⟩ := List.any_eq_true.mp hy
        rw [List.any_eq_false] at hx
        exact absurd hf (by simpa using hx m (hperm.mem_iff.mpr hm))
    | true =>
      obtain ⟨m, hm, hf⟩ := List.any_eq_true.mp hx
      exact (List.any_eq_true.mpr ⟨m, hperm.mem_iff.mp hm, hf⟩).symm

/-- Witness for C4: the two-element whitelist of `app.js`, permuted. -/
theorem set_match_any_iff_perm_invariant_witness :
    ([OriginSpec.str "http://a", OriginSpec.str "http://b"].Perm
      [OriginSpec.str "http://b", OriginSpec.str "http://a"])
    ∧ isOriginAllowed (some "http://b")
        (OriginSpec.arr [OriginSpec.str "http://a", OriginSpec.str "http://b"]) =
      isOriginAllowed (some "http://b")
        (OriginSpec.arr [OriginSpec.str "http://b", OriginSpec.str "http://a"]) :=
  ⟨List.Perm.swap _ _ _,
   (set_match_any_iff_perm_invariant (some "http://b") _ _
      (List.Perm.swap _ _ _)).2⟩

/-- C5: matching a present origin against a configured string, whether as the
sole policy string reaching `isOriginAllowed` or as a literal inside an array,
is the strict `===` comparison: it succeeds exactly when the two strings are
character-for-character identical, with no case folding, so "http://X" does
not match "http://x". -/
theorem literal_match_case_sensitive (o s : String) :
    (isOriginAllowed (some o) (OriginSpec.str s) = true ↔ o = s)
    ∧ (isOriginAllowed (some o) (OriginSpec.arr [OriginSpec.str s]) = true ↔ o = s)
    ∧ isOriginAllowed (some "http://X") (OriginSpec.str "http://x") = false := by
  refine ⟨?_, ?_, by decide⟩
  · simp [isOriginAllowed]
  · simp [isOriginAllowed, isOriginAllowedList]

/-- C6: the pattern's own case-sensitivity flag governs matching: the
`app.js` pattern /^HTTP:\/\/LOCALHOST:/i matches both "http://localhost:3000"
and "http://LOCALHOST:3000", while the same all-caps pattern without the
insensitive flag matches no origin that contains no uppercase character. -/
theorem pattern_case_insensitive_flag :
    isOriginAllowed (some "http://localhost:3000")
      (OriginSpec.arr [OriginSpec.regex ⟨"HTTP://LOCALHOST:", true⟩]) = true
    ∧ isOriginAllowed (some "http://LOCALHOST:3000")
      (OriginSpec.arr [OriginSpec.regex ⟨"HTTP://LOCALHOST:", true⟩]) = true
    ∧ ∀ o : String, (∀ c ∈ o.data, c.isUpper = false) →
        isOriginAllowed (some o)
          (OriginSpec.arr [OriginSpec.regex ⟨"HTTP://LOCALHOST:", false⟩]) = false := by
  refine ⟨by decide, by decide, ?_⟩
  intro o h
  simp only [isOriginAllowed, isOriginAllowedList, JSRegExp.test, originToString,
    if_neg, Bool.or_false, Bool.if_false_left]
  cases hp : List.isPrefixOf "HTTP://LOCALHOST:".data o.data with
  | false => simp [hp]
  | true =>
    exfalso
    have hcons : "HTTP://LOCALHOST:".data = 'H' :: "TTP://LOCALHOST:".data := rfl
    rw [hcons] at hp
    have hH : ('H' : Char) ∈ o.data := head_mem_of_isPrefixOf hp
    exact absurd (h 'H' hH) (by decide)

/-- Witness for C6: the all-lowercase origin discharging the lowercase
hypothesis of the case-sensitive branch. -/
theorem pattern_case_insensitive_flag_witness :
    (∀ c ∈ "http://localhost:3000".data, c.isUpper = false)
    ∧ isOriginAllowed (some "http://localhost:3000")
        (OriginSpec.arr [OriginSpec.regex ⟨"HTTP://LOCALHOST:", false⟩]) = false :=
  ⟨by decide,
   pattern_case_insensitive_flag.2.2 "http://localhost:3000" (by decide)⟩

/-- C7: a fixed string policy (nonempty and not the wildcard, the strings that
reach the `isString` branch) makes `configureOrigin` emit the configured
string as the allow-origin value together with `Vary: Origin`, for every
request origin, present or absent, without comparing it to the request
origin. -/
theorem fixed_emitted_unconditionally (s : String) (requestOrigin : Option String)
    (hne : s ≠ "") (hnw : s ≠ "*") :
    configureOrigin (OriginSpec.str s) requestOrigin =
      [⟨"Access-Control-Allow-Origin", HVal.str s⟩, ⟨"Vary", HVal.str "Origin"⟩] := by
  have he : (s == "") = false := beq_eq_false_iff_ne.mpr hne
  have hw : (s == "*") = false := beq_eq_false_iff_ne.mpr hnw
  simp [configureOrigin, OriginSpec.truthy, OriginSpec.isWildcard, he, hw]

/-- Witness for C7: the fixed value is emitted even though the request origin
differs from it. -/
theorem fixed_emitted_unconditionally_witness :
    ("http://127.0.0.1:3000" : String) ≠ ""
    ∧ ("http://127.0.0.1:3000" : String) ≠ "*"
    ∧ configureOrigin (OriginSpec.str "http://127.0.0.1:3000")
        (some "http://other.example") =
      [⟨"Access-Control-Allow-Origin", HVal.str "http://127.0.0.1:3000"⟩,
       ⟨"Vary", HVal.str "Origin"⟩] :=
  ⟨by decide, by decide,
   fixed_emitted_unconditionally _ _ (by decide) (by decide)⟩

/-- C8: a falsy (Disabled) policy value, such as the raw boolean `false`
resolved by a callback, makes the middleware skip the header stage entirely:
no response header key is written at all (hence no Vary marker and no
allow-origin header), and in particular the wildcard value is never
produced. -/
theorem disabled_policy_no_headers (p : OriginSpec) (requestOrigin : Option String)
    (h : p.truthy = false) :
    corsMiddlewareHeaders p requestOrigin = []
    ∧ resGet (corsMiddlewareHeaders p requestOrigin)
        "access-control-allow-origin" = none
    ∧ ∀ entry ∈ corsMiddlewareHeaders p requestOrigin, entry.snd ≠ "*" := by
  have hm : corsMiddlewareHeaders p requestOrigin = [] := by
    simp [corsMiddlewareHeaders, h]
  refine ⟨hm, ?_, ?_⟩
  · rw [hm]; rfl
  · rw [hm]; intro entry hmem; cases hmem

/-- Witness for C8 at the boolean `false` policy of the tutorial's
Listing 22. -/
theorem disabled_policy_no_headers_witness :
    OriginSpec.truthy (OriginSpec.other false) = false
    ∧ corsMiddlewareHeaders (OriginSpec.other false)
        (some "http://localhost:3000") = [] :=
  ⟨rfl,
   (disabled_policy_no_headers (OriginSpec.other false)
      (some "http://localhost:3000") rfl).1⟩

/-- C9: any truthy array element that is neither an array, nor a string, nor a
regular expression (the `!!allowedOrigin` fallback) makes the whole array
match every origin, so `configureOrigin` reflects whatever present origin asks
back into the allow-origin value. -/
theorem truthy_matcher_reflects_all (o : String) (xs : List OriginSpec)
    (h : OriginSpec.other true ∈ xs) :
    isOriginAllowed (some o) (OriginSpec.arr xs) = true
    ∧ configureOrigin (OriginSpec.arr xs) (some o) =
      [⟨"Access-Control-Allow-Origin", HVal.str o⟩, ⟨"Vary", HVal.str "Origin"⟩] := by
  have hall : isOriginAllowed (some o) (OriginSpec.arr xs) = true := by
    show isOriginAllowedList (some o) xs = true
    rw [isOriginAllowedList_eq_any]
    exact List.any_eq_true.mpr ⟨_, h, rfl⟩
  refine ⟨hall, ?_⟩
  simp [configureOrigin, OriginSpec.truthy, OriginSpec.isWildcard, hall, HVal.ofOrigin]

/-- Witness for C9: a whitelist accidentally containing `true` reflects an
origin that matches no listed string. -/
theorem truthy_matcher_reflects_all_witness :
    OriginSpec.other true ∈
      [OriginSpec.str "http://127.0.0.1:3000", OriginSpec.other true]
    ∧ configureOrigin
        (OriginSpec.arr [OriginSpec.str "http://127.0.0.1:3000", OriginSpec.other true])
        (some "http://evil.example") =
      [⟨"Access-Control-Allow-Origin", HVal.str "http://evil.example"⟩,
       ⟨"Vary", HVal.str "Origin"⟩] :=
  ⟨by simp,
   (truthy_matcher_reflects_all "http://evil.example" _ (by simp)).2⟩

/-- C10: the empty array policy denies every origin, present or absent: the
loop of `isOriginAllowed` falls through to `false`, and `configureOrigin`
records the denial value `false` (with `Vary: Origin`), never reflecting any
origin into the allow-origin value. -/
theorem empty_set_denies_all (requestOrigin : Option String) :
    isOriginAllowed requestOrigin (OriginSpec.arr []) = false
    ∧ configureOrigin (OriginSpec.arr []) requestOrigin =
      [⟨"Access-Control-Allow-Origin", HVal.fls⟩, ⟨"Vary", HVal.str "Origin"⟩] := by
  refine ⟨rfl, ?_⟩
  simp [configureOrigin, OriginSpec.truthy, OriginSpec.isWildcard,
    isOriginAllowed, isOriginAllowedList]

end CorsBackend
